import Mathlib

/-!
Verification of the GivingForward nonprofit database platform.

Shallow embedding of `app/irs_processor.py` (IRS bulk-file parsing and
amount-code normalization), `app/database.py` (SQLite-backed corpus:
bulk upsert, filtered search with pagination, statistics), and the
validated search endpoint of `app/main.py`.

Conventions of the embedding:
* Python strings are Lean `String`s; `str.strip()` is `pyStrip`
  (the inputs handled by this pipeline are ASCII, where Python's
  whitespace set is the six characters modelled below) and
  `str.upper()` is `String.toUpper` (identical on ASCII).
* SQL NULL for the text columns that this development never branches
  on is modelled as `""`.
* The SQLite `organizations` table is a list of `OrgRow`s; uniqueness
  of `ein` under `INSERT OR REPLACE` is the explicit delete-then-append
  `upsert` below.
* Fallible Python code returning `None` becomes `Option`; code that
  raises becomes `Option`/`Except` at the call boundary.
-/

/-- The six characters Python's `str.strip()` removes from ASCII text:
space, tab, newline, carriage return, vertical tab, form feed. -/
def isPyWhitespace (c : Char) : Bool :=
  c = ' ' || c = '\t' || c = '\n' || c = '\r' || c = '\x0b' || c = '\x0c'

/-- Python `str.strip()`: drop leading and trailing whitespace. -/
def pyStrip (s : String) : String :=
  String.mk (((s.data.dropWhile isPyWhitespace).reverse.dropWhile isPyWhitespace).reverse)

/-- `IRSDataProcessor.AMOUNT_CODES` (irs_processor.py lines 32-48):
asset/income amount code table. -/
def AMOUNT_CODES : List (String × Nat) :=
  [("", 0), ("0", 0), ("1", 5000), ("2", 25000), ("3", 62500),
   ("4", 175000), ("5", 375000), ("6", 750000), ("7", 2500000),
   ("8", 7500000), ("9", 25000000), ("A", 75000000), ("B", 175000000),
   ("C", 375000000), ("D", 750000000)]

/-- Python `str.upper()` on ASCII text: uppercase every character. -/
def pyUpper (s : String) : String := String.mk (s.data.map Char.toUpper)

/-- `IRSDataProcessor._parse_amount_code` (irs_processor.py lines 236-239):
`code = str(code).strip().upper(); return self.AMOUNT_CODES.get(code, 0)`. -/
def parse_amount_code (code : String) : Nat :=
  (AMOUNT_CODES.lookup (pyUpper (pyStrip code))).getD 0

/-- `IRSDataProcessor.NTEE_CATEGORIES` (irs_processor.py lines 51-78),
keyed by the single character of each Python key. -/
def NTEE_CATEGORIES : List (Char × String) :=
  [('A', "Arts, Culture & Humanities"),
   ('B', "Education"),
   ('C', "Environment"),
   ('D', "Animal-Related"),
   ('E', "Health Care"),
   ('F', "Mental Health & Crisis Intervention"),
   ('G', "Diseases, Disorders & Medical Disciplines"),
   ('H', "Medical Research"),
   ('I', "Crime & Legal-Related"),
   ('J', "Employment"),
   ('K', "Food, Agriculture & Nutrition"),
   ('L', "Housing & Shelter"),
   ('M', "Public Safety, Disaster Preparedness & Relief"),
   ('N', "Recreation & Sports"),
   ('O', "Youth Development"),
   ('P', "Human Services"),
   ('Q', "International, Foreign Affairs & National Security"),
   ('R', "Civil Rights, Social Action & Advocacy"),
   ('S', "Community Improvement & Capacity Building"),
   ('T', "Philanthropy, Voluntarism & Grantmaking Foundations"),
   ('U', "Science & Technology"),
   ('V', "Social Science"),
   ('W', "Public & Societal Benefit"),
   ('X', "Religion-Related"),
   ('Y', "Mutual & Membership Benefit"),
   ('Z', "Unknown")]

/-- A raw EO BMF CSV row as seen by `csv.DictReader`: each field accessed
via `row.get(KEY, '')`, so a missing column is the empty string. -/
structure RawRow where
  EIN : String := ""
  NAME : String := ""
  STREET : String := ""
  CITY : String := ""
  STATE : String := ""
  ZIP : String := ""
  SUBSECTION : String := ""
  NTEE_CD : String := ""
  FOUNDATION : String := ""
  ASSET_AMT : String := ""
  INCOME_AMT : String := ""
  REVENUE_AMT : String := ""
  STATUS : String := ""
  RULING : String := ""
  TAX_PERIOD : String := ""
  GEN : String := ""
  DEDUCTIBILITY : String := ""
  ACTIVITY : String := ""
  ORGANIZATION : String := ""
  deriving Repr, DecidableEq

/-- The record dictionary built by `IRSDataProcessor._parse_eo_row`
(irs_processor.py lines 196-232). `ntee_description` is `none` when the
key is never attached (empty classification code). -/
structure ParsedOrg where
  ein : String
  name : String
  street : String
  city : String
  state : String
  zip : String
  subsection_code : String
  ntee_code : String
  foundation_code : String
  asset_amount : Nat
  income_amount : Nat
  revenue_amount : Nat
  tax_exempt_status : String
  ruling_date : String
  tax_period : String
  group_exemption : String
  deductibility : String
  activity_codes : String
  organization_code : String
  data_source : String
  ntee_description : Option String
  deriving Repr, DecidableEq, Inhabited

/-- `IRSDataProcessor._parse_eo_row` (irs_processor.py lines 188-234):
returns `none` when the stripped EIN is blank, otherwise the cleaned
record, with the NTEE description attached only for a non-empty code. -/
def parse_eo_row (row : RawRow) : Option ParsedOrg :=
  let ein := pyStrip row.EIN
  if ein = "" then none
  else
    let ntee := pyStrip row.NTEE_CD
    some {
      ein := ein
      name := (pyStrip row.NAME).take 500
      street := pyStrip row.STREET
      city := pyStrip row.CITY
      state := (pyStrip row.STATE).take 2
      zip := (pyStrip row.ZIP).take 10
      subsection_code := pyStrip row.SUBSECTION
      ntee_code := ntee
      foundation_code := pyStrip row.FOUNDATION
      asset_amount := parse_amount_code row.ASSET_AMT
      income_amount := parse_amount_code row.INCOME_AMT
      revenue_amount := parse_amount_code row.REVENUE_AMT
      tax_exempt_status := pyStrip row.STATUS
      ruling_date := pyStrip row.RULING
      tax_period := pyStrip row.TAX_PERIOD
      group_exemption := pyStrip row.GEN
      deductibility := pyStrip row.DEDUCTIBILITY
      activity_codes := pyStrip row.ACTIVITY
      organization_code := pyStrip row.ORGANIZATION
      data_source := "IRS_EO_BMF"
      ntee_description :=
        if ntee.isEmpty then none
        else
          let category_code := if ntee.isEmpty then 'Z' else ntee.front
          some ((NTEE_CATEGORIES.lookup category_code).getD "Unknown") }

/-- `IRSDataProcessor.parse_eo_bmf` (irs_processor.py lines 157-186):
parse every row, keeping only the rows for which `_parse_eo_row`
returns a record (`if org: organizations.append(org)`). -/
def parse_eo_bmf (rows : List RawRow) : List ParsedOrg :=
  rows.filterMap parse_eo_row

/-- A row of the SQLite `organizations` table restricted to the sixteen
columns written by `DatabaseManager.insert_organizations`
(database.py lines 326-334); the `ein` column is `UNIQUE NOT NULL`. -/
structure OrgRow where
  ein : String
  name : String
  legal_name : String := ""
  street : String := ""
  city : String := ""
  state : String := ""
  zip : String := ""
  ntee_code : String := ""
  subsection_code : String := ""
  foundation_code : String := ""
  asset_amount : Int := 0
  income_amount : Int := 0
  revenue_amount : Int := 0
  tax_exempt_status : String := ""
  ruling_date : String := ""
  data_source : String := "IRS"
  deriving Repr, DecidableEq

/-- The data tuple built from a parsed record by
`DatabaseManager.insert_organizations` (database.py lines 345-362):
`org.get(key)` for each inserted column, defaults 0 for the amounts and
`'IRS'` for a missing `data_source` (always `'IRS_EO_BMF'` here). -/
def toOrgRow (o : ParsedOrg) : OrgRow :=
  { ein := o.ein, name := o.name, legal_name := "", street := o.street,
    city := o.city, state := o.state, zip := o.zip,
    ntee_code := o.ntee_code, subsection_code := o.subsection_code,
    foundation_code := o.foundation_code,
    asset_amount := (o.asset_amount : Int),
    income_amount := (o.income_amount : Int),
    revenue_amount := (o.revenue_amount : Int),
    tax_exempt_status := o.tax_exempt_status,
    ruling_date := o.ruling_date, data_source := o.data_source }

/-- `INSERT OR REPLACE` of one row into the `organizations` table
(database.py line 327): any existing row conflicting on the `UNIQUE`
`ein` column is deleted and the new row is inserted. -/
def upsert (corpus : List OrgRow) (org : OrgRow) : List OrgRow :=
  corpus.filter (fun r => r.ein != org.ein) ++ [org]

/-- `executemany` of the upsert statement over a list of rows. -/
def upsertAll (corpus : List OrgRow) (orgs : List OrgRow) : List OrgRow :=
  orgs.foldl upsert corpus

/-- Fuel-driven batching loop; the fuel is an upper bound on the list
length, so it never runs out for a positive step. -/
def chunksGo (fuel bs : Nat) (l : List OrgRow) : List (List OrgRow) :=
  match fuel, l with
  | _, [] => []
  | 0, _ :: _ => []
  | fuel + 1, x :: xs => (x :: xs).take bs :: chunksGo fuel bs ((x :: xs).drop bs)

/-- The batches produced by `range(0, len(organizations), batch_size)`
slicing (database.py lines 339-340); meaningful only for a positive
batch size. -/
def chunks (bs : Nat) (l : List OrgRow) : List (List OrgRow) :=
  chunksGo l.length bs l

/-- `DatabaseManager.insert_organizations` (database.py lines 321-371):
upsert the rows batch by batch, adding each batch's length to the
running `total_inserted`, and return `(final corpus, total_inserted)`.
`none` models the `ValueError` that `range(0, n, 0)` raises for a
non-positive batch size. -/
def insert_organizations (corpus : List OrgRow) (organizations : List OrgRow)
    (batch_size : Nat := 1000) : Option (List OrgRow × Nat) :=
  if batch_size = 0 then none
  else some ((chunks batch_size organizations).foldl
    (fun acc batch => (upsertAll acc.1 batch, acc.2 + batch.length))
    (corpus, 0))

/-- The filter arguments of `DatabaseManager.search_organizations`
(database.py lines 218-229). The full-text `MATCH` of a provided `query`
(the FTS index is trigger-synchronized with the table) is modelled as an
opaque row predicate. -/
structure Filters where
  query : Option (OrgRow → Bool) := none
  state : Option String := none
  city : Option String := none
  ntee_code : Option String := none
  min_revenue : Option Int := none
  max_revenue : Option Int := none
  min_assets : Option Int := none
  max_assets : Option Int := none

/-- Substring occurrence over character lists. -/
def listContainsSub (haystack needle : List Char) : Bool :=
  needle.isPrefixOf haystack ||
    match haystack with
    | [] => false
    | _ :: t => listContainsSub t needle

/-- SQLite `column LIKE '%pat%'`, case-insensitive over ASCII. -/
def likeContains (haystack needle : String) : Bool :=
  listContainsSub (pyUpper haystack).data (pyUpper needle).data

/-- SQLite `column LIKE 'pat%'`, case-insensitive over ASCII. -/
def likeStartsWith (haystack needle : String) : Bool :=
  (pyUpper needle).data.isPrefixOf (pyUpper haystack).data

/-- The WHERE clause assembled by `DatabaseManager.search_organizations`
(database.py lines 242-291), shared verbatim by the row query and the
count query. A filter guarded by Python truthiness (`if state:`) is
skipped for an empty string; the range filters are guarded by
`is not None` and compare with `>=` / `<=`. -/
def matchesFilters (f : Filters) (o : OrgRow) : Bool :=
  (match f.query with
   | none => true
   | some p => p o) &&
  (match f.state with
   | none => true
   | some s => if s.isEmpty then true else o.state == s) &&
  (match f.city with
   | none => true
   | some c => if c.isEmpty then true else likeContains o.city c) &&
  (match f.ntee_code with
   | none => true
   | some n => if n.isEmpty then true else likeStartsWith o.ntee_code n) &&
  (match f.min_revenue with
   | none => true
   | some v => v ≤ o.revenue_amount) &&
  (match f.max_revenue with
   | none => true
   | some v => o.revenue_amount ≤ v) &&
  (match f.min_assets with
   | none => true
   | some v => v ≤ o.asset_amount) &&
  (match f.max_assets with
   | none => true
   | some v => o.asset_amount ≤ v)

/-- `ORDER BY revenue_amount DESC` as a sort relation: `a` precedes `b`
when `a`'s revenue is at least `b`'s. -/
def revDescLE (a b : OrgRow) : Prop := b.revenue_amount ≤ a.revenue_amount

instance : DecidableRel revDescLE := fun a b =>
  inferInstanceAs (Decidable (b.revenue_amount ≤ a.revenue_amount))

instance : IsTotal OrgRow revDescLE :=
  ⟨fun a b => (Int.le_total a.revenue_amount b.revenue_amount).symm⟩

instance : IsTrans OrgRow revDescLE :=
  ⟨fun _ _ _ hab hbc => le_trans hbc hab⟩

/-- `DatabaseManager.search_organizations` (database.py lines 218-305):
the count query runs the shared WHERE clause with no LIMIT/OFFSET
(line 294); the row query then adds
`ORDER BY revenue_amount DESC LIMIT ? OFFSET ?` (line 297).
Returns `(results, total_count)`. -/
def search_organizations (corpus : List OrgRow) (f : Filters)
    (limit : Nat := 50) (offset : Nat := 0) : List OrgRow × Nat :=
  let filtered := corpus.filter (matchesFilters f)
  let total := filtered.length
  let ordered := filtered.insertionSort revDescLE
  (((ordered.drop offset).take limit), total)

/-- The `CASE` expression of the revenue-distribution query in
`DatabaseManager.get_statistics` (database.py lines 408-417). -/
def revenueBucket (revenue_amount : Int) : String :=
  if revenue_amount = 0 then "Zero"
  else if revenue_amount < 50000 then "<$50K"
  else if revenue_amount < 250000 then "$50K-$250K"
  else if revenue_amount < 1000000 then "$250K-$1M"
  else if revenue_amount < 5000000 then "$1M-$5M"
  else ">$5M"

/-- The six bucket labels in ascending revenue order; `ORDER BY
revenue_amount` over the grouped rows yields this order because the
buckets partition the revenue axis into increasing intervals. -/
def bucketLabels : List String :=
  ["Zero", "<$50K", "$50K-$250K", "$250K-$1M", "$1M-$5M", ">$5M"]

/-- The `revenue_distribution` rows of `DatabaseManager.get_statistics`
(database.py lines 408-423): `GROUP BY` the bucket label and count.
SQL `GROUP BY` produces a group only for values that occur, so a label
whose count is zero yields no row. -/
def revenue_distribution (corpus : List OrgRow) : List (String × Nat) :=
  bucketLabels.filterMap (fun lbl =>
    let c := (corpus.filter (fun o => revenueBucket o.revenue_amount == lbl)).length
    if c = 0 then none else some (lbl, c))

/-- Modelled from the spec: the `/api/search` endpoint declares
`limit: int = Query(50, ge=1, le=500)` and `offset: int = Query(0, ge=0)`
(main.py lines 92-93); the web framework that enforces these declared
bounds is not part of the repository sources, and per the spec an
out-of-bounds value is "rejected before execution with a descriptive
validation failure; never reaches storage". Only a validated request
invokes `DatabaseManager.search_organizations`. -/
def searchEndpoint (corpus : List OrgRow) (f : Filters)
    (limit : Int := 50) (offset : Int := 0) :
    Except String (List OrgRow × Nat) :=
  if limit < 1 then Except.error "limit must be greater than or equal to 1"
  else if 500 < limit then Except.error "limit must be less than or equal to 500"
  else if offset < 0 then Except.error "offset must be greater than or equal to 0"
  else Except.ok (search_organizations corpus f limit.toNat offset.toNat)

/-- The run-summary dictionary of `IRSDataProcessor.process_all_data`
(irs_processor.py lines 279-284 and 291-316): `errors` is initialized
to 0 and never incremented anywhere in the run. -/
structure ProcStats where
  eo_bmf_files : Nat := 0
  organizations_processed : Nat := 0
  errors : Nat := 0
  pub78_downloaded : Bool := false
  deriving Repr, DecidableEq

/-- `IRSDataProcessor.process_all_data` (irs_processor.py lines 274-323),
taking the downloaded partition files (each a list of raw rows) and
whether the Publication 78 download succeeded. Returns the run summary,
the combined record batch (`[]` when no file was downloaded, via the
`'all_organizations' in locals()` guard), and the list of processed
output files written (one JSON dump only when at least one partition was
downloaded). -/
def process_all_data (downloaded_files : List (List RawRow))
    (pub78ok : Bool) :
    ProcStats × List ParsedOrg × List (List ParsedOrg) :=
  match downloaded_files with
  | [] =>
    ({ eo_bmf_files := 0, organizations_processed := 0, errors := 0,
       pub78_downloaded := pub78ok }, [], [])
  | fs =>
    let all_organizations := fs.foldl (fun acc f => acc ++ parse_eo_bmf f) []
    ({ eo_bmf_files := fs.length,
       organizations_processed := all_organizations.length,
       errors := 0,
       pub78_downloaded := pub78ok }, all_organizations, [all_organizations])

/-! ### Concrete fixtures used by the example-level properties -/

/-- Sample corpus rows with the revenue profile of the spec's worked
example: revenues 0, 40000, 300000, 2000000, 8000000. -/
def orgRev0 : OrgRow := { ein := "00-0000001", name := "Org Zero", revenue_amount := 0 }

def orgRev40k : OrgRow := { ein := "00-0000002", name := "Org Small", revenue_amount := 40000 }

def orgRev300k : OrgRow := { ein := "00-0000003", name := "Org Mid", revenue_amount := 300000 }

def orgRev2m : OrgRow := { ein := "00-0000004", name := "Org Large", revenue_amount := 2000000 }

def orgRev8m : OrgRow := { ein := "00-0000005", name := "Org Huge", revenue_amount := 8000000 }

def sampleCorpus : List OrgRow := [orgRev0, orgRev40k, orgRev300k, orgRev2m, orgRev8m]

/-- Two records sharing one EIN but differing in every other field. -/
def dupOrgFirst : OrgRow := { ein := "11-1111111", name := "First Name", city := "Austin" }

def dupOrgSecond : OrgRow := { ein := "11-1111111", name := "Second Name", city := "Boston" }

/-- A raw row whose EIN is blank after trimming. -/
def blankEinRow : RawRow := { EIN := "   ", NAME := "No Identity Org" }

/-- A raw row with classification code B300. -/
def eduRow : RawRow := { EIN := "12-3456789", NAME := "Test School", NTEE_CD := "B300" }

/-- A raw row whose classification code has an unrecognized leading
character. -/
def oddNteeRow : RawRow := { EIN := "98-7654321", NAME := "Odd Org", NTEE_CD := "1234" }

/-! ### Helper lemmas -/

/-- `ein` values are pairwise distinct: the invariant enforced by the
`UNIQUE` constraint on the `ein` column. -/
abbrev UniqueEins (corpus : List OrgRow) : Prop :=
  corpus.Pairwise (fun a b => a.ein ≠ b.ein)

lemma lookup_eq_none_of_not_mem_keys {l : List (String × Nat)} {k : String}
    (h : k ∉ l.map Prod.fst) : l.lookup k = none := by
  induction l with
  | nil => rfl
  | cons p t ih =>
    simp only [List.map_cons, List.mem_cons, not_or] at h
    rw [show p = (p.1, p.2) from rfl, List.lookup_cons]
    have : (k == p.1) = false := beq_eq_false_iff_ne.mpr h.1
    rw [this]
    exact ih h.2

lemma upsert_uniqueEins {corpus : List OrgRow} (org : OrgRow)
    (h : UniqueEins corpus) : UniqueEins (upsert corpus org) := by
  unfold upsert UniqueEins
  rw [List.pairwise_append]
  refine ⟨h.filter _, List.pairwise_singleton _ _, ?_⟩
  intro a ha b hb
  rw [List.mem_filter] at ha
  rw [List.mem_singleton] at hb
  subst hb
  exact bne_iff_ne.mp ha.2

lemma upsertAll_uniqueEins {corpus : List OrgRow} (orgs : List OrgRow)
    (h : UniqueEins corpus) : UniqueEins (upsertAll corpus orgs) := by
  induction orgs generalizing corpus with
  | nil => exact h
  | cons o t ih => exact ih (upsert_uniqueEins o h)

lemma find?_upsert (corpus : List OrgRow) (org : OrgRow) :
    (upsert corpus org).find? (fun r => r.ein == org.ein) = some org := by
  unfold upsert
  rw [List.find?_append]
  have hnone : (corpus.filter (fun r => r.ein != org.ein)).find?
      (fun r => r.ein == org.ein) = none := by
    rw [List.find?_eq_none]
    intro x hx
    rw [List.mem_filter] at hx
    simpa using bne_iff_ne.mp hx.2
  rw [hnone]
  simp [List.find?_cons]

lemma upsertAll_append (corpus : List OrgRow) (a b : List OrgRow) :
    upsertAll corpus (a ++ b) = upsertAll (upsertAll corpus a) b :=
  List.foldl_append _ _ _ _

lemma chunksGo_join {bs : Nat} (hbs : bs ≠ 0) :
    ∀ (fuel : Nat) (l : List OrgRow), l.length ≤ fuel →
      (chunksGo fuel bs l).flatten = l := by
  intro fuel
  induction fuel with
  | zero =>
    intro l hl
    cases l with
    | nil => rfl
    | cons x xs => simp at hl
  | succ n ih =>
    intro l hl
    cases l with
    | nil => rfl
    | cons x xs =>
      show ((x :: xs).take bs ++ (chunksGo n bs ((x :: xs).drop bs)).flatten) = x :: xs
      rw [ih ((x :: xs).drop bs) (by
        rw [List.length_drop]
        simp only [List.length_cons] at hl ⊢
        omega)]
      exact List.take_append_drop bs (x :: xs)

lemma chunks_join {bs : Nat} (hbs : bs ≠ 0) (l : List OrgRow) :
    (chunks bs l).flatten = l :=
  chunksGo_join hbs l.length l le_rfl

lemma foldl_batches (cs : List (List OrgRow)) :
    ∀ (corpus : List OrgRow) (n : Nat),
      cs.foldl (fun acc batch => (upsertAll acc.1 batch, acc.2 + batch.length))
        (corpus, n) = (upsertAll corpus cs.flatten, n + cs.flatten.length) := by
  induction cs with
  | nil => intro corpus n; simp [upsertAll]
  | cons c t ih =>
    intro corpus n
    show t.foldl _ (upsertAll corpus c, n + c.length) = _
    rw [ih (upsertAll corpus c) (n + c.length)]
    rw [List.flatten_cons, upsertAll_append, List.length_append]
    ring_nf

lemma insert_organizations_eq (corpus orgs : List OrgRow) {bs : Nat}
    (hbs : 0 < bs) :
    insert_organizations corpus orgs bs = some (upsertAll corpus orgs, orgs.length) := by
  unfold insert_organizations
  rw [if_neg (Nat.pos_iff_ne_zero.mp hbs)]
  rw [foldl_batches, chunks_join (Nat.pos_iff_ne_zero.mp hbs), Nat.zero_add]

/-! ### Claim theorems -/

/-- C1: the organizations corpus holds at most one row per EIN under any
sequence of bulk upserts; upserting an EIN already present replaces the
whole existing row with the later record (same-EIN ingestions leave one
row bearing the later fields), never a duplicate; and the batched
`insert_organizations` realizes exactly this upsert semantics. -/
theorem ein_unique_upsert_spec :
    (∀ corpus orgs : List OrgRow, UniqueEins corpus → UniqueEins (upsertAll corpus orgs))
    ∧ (∀ orgs : List OrgRow, UniqueEins (upsertAll [] orgs))
    ∧ (∀ (corpus : List OrgRow) (org : OrgRow),
        (upsert corpus org).find? (fun r => r.ein == org.ein) = some org)
    ∧ (∀ o1 o2 : OrgRow, o1.ein = o2.ein → upsertAll [] [o1, o2] = [o2])
    ∧ (∀ (corpus orgs : List OrgRow) (bs : Nat), 0 < bs →
        ∀ res, insert_organizations corpus orgs bs = some res →
          res.1 = upsertAll corpus orgs) := by
  refine ⟨fun _ orgs h => upsertAll_uniqueEins orgs h,
    fun orgs => upsertAll_uniqueEins orgs List.Pairwise.nil,
    find?_upsert, ?_, ?_⟩
  · intro o1 o2 h
    show upsert (upsert [] o1) o2 = [o2]
    simp [upsert, List.filter, h]
  · intro corpus orgs bs hbs res hres
    rw [insert_organizations_eq corpus orgs hbs] at hres
    exact (congrArg Prod.fst (Option.some.inj hres)).symm

/-- C1 witness: a corpus built by upserts is EIN-unique, and ingesting
the same EIN twice leaves exactly the second record. -/
theorem ein_unique_upsert_spec_witness :
    UniqueEins (upsertAll [dupOrgFirst] [orgRev0, dupOrgSecond])
    ∧ upsertAll [] [dupOrgFirst, dupOrgSecond] = [dupOrgSecond] :=
  ⟨ein_unique_upsert_spec.1 [dupOrgFirst] [orgRev0, dupOrgSecond] (by decide),
   ein_unique_upsert_spec.2.2.2.1 dupOrgFirst dupOrgSecond (by decide)⟩

/-- C9: for every input list and positive batch size, the bulk upsert
returns the length of the input list as its inserted count — duplicated
EINs replace rows but are still counted. -/
theorem insert_count_spec :
    ∀ (corpus orgs : List OrgRow) (bs : Nat), 0 < bs →
      insert_organizations corpus orgs bs
        = some (upsertAll corpus orgs, orgs.length) :=
  fun corpus orgs _ hbs => insert_organizations_eq corpus orgs hbs

/-- C9 witness: two records sharing one EIN yield one persisted row but
an inserted count of 2. -/
theorem insert_count_spec_witness :
    insert_organizations [] [dupOrgFirst, dupOrgSecond] 1000
      = some ([dupOrgSecond], 2)
    ∧ ([dupOrgSecond] : List OrgRow).length ≠ 2 := by
  constructor
  · rw [insert_count_spec [] [dupOrgFirst, dupOrgSecond] 1000 (by decide)]
    decide
  · decide

/-- C10: a run in which the download step yields no partition files
terminates normally, returning a summary with zero files and zero
organizations processed, an empty record batch, and no written output
file. -/
theorem empty_download_run_spec :
    ∀ b : Bool, process_all_data [] b =
      ({ eo_bmf_files := 0, organizations_processed := 0, errors := 0,
         pub78_downloaded := b }, [], []) :=
  fun _ => rfl

/-- C3: every code of the documented amount table maps to its bucket;
any input whose stripped, uppercased form is not a table key maps to 0;
only the stripped, uppercased form of the input matters (hence the
normalizer is case-insensitive and whitespace-tolerant); and the
example ' d ' maps as 'D', namely to 750000000. -/
theorem amount_code_normalizer_spec :
    (∀ p ∈ AMOUNT_CODES, parse_amount_code p.1 = p.2)
    ∧ (∀ s : String, pyUpper (pyStrip s) ∉ AMOUNT_CODES.map Prod.fst →
        parse_amount_code s = 0)
    ∧ (∀ s t : String, pyUpper (pyStrip s) = pyUpper (pyStrip t) →
        parse_amount_code s = parse_amount_code t)
    ∧ parse_amount_code " d " = parse_amount_code "D"
    ∧ parse_amount_code " d " = 750000000 := by
  refine ⟨by decide, ?_, ?_, by decide, by decide⟩
  · intro s h
    unfold parse_amount_code
    rw [lookup_eq_none_of_not_mem_keys h]
    rfl
  · intro s t h
    unfold parse_amount_code
    rw [h]

/-- C3 witness: table code '7' maps to 2500000, the unrecognized code
'qq' maps to 0, and ' d ' maps as 'D'. -/
theorem amount_code_normalizer_spec_witness :
    parse_amount_code "7" = 2500000 ∧ parse_amount_code "qq" = 0
      ∧ parse_amount_code " d " = parse_amount_code "D" :=
  ⟨amount_code_normalizer_spec.1 ("7", 2500000) (by decide),
   amount_code_normalizer_spec.2.1 "qq" (by decide),
   amount_code_normalizer_spec.2.2.1 " d " "D" (by decide)⟩

/-- C2: for every corpus, filter combination, limit and offset, the
returned total count equals the number of stored organizations
satisfying the filters — independent of limit and offset and never
derived from the returned page; with no filters and limit L (offset 0)
the search returns min(L, corpus size) records ordered by revenue
descending, with total count the full corpus size. -/
theorem search_total_count_spec :
    (∀ (corpus : List OrgRow) (f : Filters) (L O L2 O2 : Nat),
        (search_organizations corpus f L O).2 = (search_organizations corpus f L2 O2).2)
    ∧ (∀ (corpus : List OrgRow) (f : Filters) (L O : Nat),
        (search_organizations corpus f L O).2
          = (corpus.filter (matchesFilters f)).length)
    ∧ (∀ (corpus : List OrgRow) (L : Nat),
        (search_organizations corpus {} L 0).1.length = min L corpus.length
        ∧ List.Sorted revDescLE (search_organizations corpus {} L 0).1
        ∧ (search_organizations corpus {} L 0).2 = corpus.length) := by
  refine ⟨fun _ _ _ _ _ _ => rfl, fun _ _ _ _ => rfl, ?_⟩
  intro corpus L
  have hfilter : corpus.filter (matchesFilters {}) = corpus :=
    List.filter_eq_self.mpr (fun a _ => rfl)
  refine ⟨?_, ?_, ?_⟩
  · show (((List.insertionSort revDescLE
        (corpus.filter (matchesFilters {}))).drop 0).take L).length = _
    rw [List.drop_zero, List.length_take, List.length_insertionSort, hfilter]
  · have hs := List.sorted_insertionSort revDescLE (corpus.filter (matchesFilters {}))
    exact List.Pairwise.sublist
      ((List.take_sublist _ _).trans (List.drop_sublist _ _)) hs
  · show (corpus.filter (matchesFilters {})).length = corpus.length
    rw [hfilter]

/-- C5: the revenue and asset range filters are inclusive at both ends:
a record whose revenue (resp. assets) equals the minimum or the maximum
bound satisfies the filter and belongs to the filtered set; and over the
sample corpus, search(minRevenue=1000000, maxRevenue=5000000) returns
exactly the 2000000-revenue record. -/
theorem range_filters_inclusive_spec :
    (∀ (corpus : List OrgRow) (minR maxR : Int) (o : OrgRow),
        o ∈ corpus → minR ≤ maxR →
        (o.revenue_amount = minR ∨ o.revenue_amount = maxR) →
        matchesFilters { min_revenue := some minR, max_revenue := some maxR } o = true
        ∧ o ∈ corpus.filter
            (matchesFilters { min_revenue := some minR, max_revenue := some maxR }))
    ∧ (∀ (corpus : List OrgRow) (minA maxA : Int) (o : OrgRow),
        o ∈ corpus → minA ≤ maxA →
        (o.asset_amount = minA ∨ o.asset_amount = maxA) →
        matchesFilters { min_assets := some minA, max_assets := some maxA } o = true
        ∧ o ∈ corpus.filter
            (matchesFilters { min_assets := some minA, max_assets := some maxA }))
    ∧ search_organizations sampleCorpus
        { min_revenue := some 1000000, max_revenue := some 5000000 } 50 0
        = ([orgRev2m], 1) := by
  refine ⟨?_, ?_, by decide⟩
  · intro corpus minR maxR o ho hle heq
    have hm : matchesFilters
        { min_revenue := some minR, max_revenue := some maxR } o = true := by
      simp only [matchesFilters, Bool.and_eq_true, decide_eq_true_eq]
      rcases heq with h | h <;> simp [h] <;> omega
    exact ⟨hm, List.mem_filter.mpr ⟨ho, hm⟩⟩
  · intro corpus minA maxA o ho hle heq
    have hm : matchesFilters
        { min_assets := some minA, max_assets := some maxA } o = true := by
      simp only [matchesFilters, Bool.and_eq_true, decide_eq_true_eq]
      rcases heq with h | h <;> simp [h] <;> omega
    exact ⟨hm, List.mem_filter.mpr ⟨ho, hm⟩⟩

/-- C5 witness: in the sample corpus the record with revenue exactly
1000000 (the minimum bound 1000000 of a [1000000, 5000000] range filter
is attained by no sample record, so the bound itself is exercised with
minR = maxR = 2000000) satisfies the filter, and the worked example
returns exactly the 2000000 record. -/
theorem range_filters_inclusive_spec_witness :
    matchesFilters
      { min_revenue := some 2000000, max_revenue := some 2000000 } orgRev2m = true
    ∧ matchesFilters
      { min_assets := some 0, max_assets := some 0 } orgRev2m = true :=
  ⟨(range_filters_inclusive_spec.1 sampleCorpus 2000000 2000000 orgRev2m
      (by decide) (by decide) (Or.inl (by decide))).1,
   (range_filters_inclusive_spec.2.1 sampleCorpus 0 0 orgRev2m
      (by decide) (by decide) (Or.inr (by decide))).1⟩

/-- C6 counterexample: over the sample corpus the reported revenue
distribution has no entry at all for the empty bucket, so it does not
report the count 0 for the $50K-$250K bucket as the claim states. -/
theorem revenue_distribution_zero_bucket_cex :
    revenue_distribution sampleCorpus
      = [("Zero", 1), ("<$50K", 1), ("$250K-$1M", 1), ("$1M-$5M", 1), (">$5M", 1)]
    ∧ "$50K-$250K" ∉ (revenue_distribution sampleCorpus).map Prod.fst :=
  ⟨by decide, by decide⟩

/-- C6 (amended): the histogram is inclusive-lower, exclusive-upper with
the documented boundaries and labels; every reported pair carries the
exact count of corpus rows in its bucket and is nonzero (empty buckets
are omitted); and the sample corpus reports Zero:1, <$50K:1, $250K-$1M:1,
$1M-$5M:1, >$5M:1 with no $50K-$250K entry. -/
theorem revenue_distribution_spec :
    revenueBucket 0 = "Zero"
    ∧ (∀ r : Int, 1 ≤ r → r ≤ 49999 → revenueBucket r = "<$50K")
    ∧ (∀ r : Int, 50000 ≤ r → r ≤ 249999 → revenueBucket r = "$50K-$250K")
    ∧ (∀ r : Int, 250000 ≤ r → r ≤ 999999 → revenueBucket r = "$250K-$1M")
    ∧ (∀ r : Int, 1000000 ≤ r → r ≤ 4999999 → revenueBucket r = "$1M-$5M")
    ∧ (∀ r : Int, 5000000 ≤ r → revenueBucket r = ">$5M")
    ∧ (∀ (corpus : List OrgRow) (lbl : String) (c : Nat),
        (lbl, c) ∈ revenue_distribution corpus →
        c = (corpus.filter (fun o => revenueBucket o.revenue_amount == lbl)).length
        ∧ c ≠ 0)
    ∧ revenue_distribution sampleCorpus
      = [("Zero", 1), ("<$50K", 1), ("$250K-$1M", 1), ("$1M-$5M", 1), (">$5M", 1)] := by
  refine ⟨rfl, ?_, ?_, ?_, ?_, ?_, ?_, by decide⟩
  · intro r h1 h2; simp only [revenueBucket]; split_ifs <;> first | rfl | omega
  · intro r h1 h2; simp only [revenueBucket]; split_ifs <;> first | rfl | omega
  · intro r h1 h2; simp only [revenueBucket]; split_ifs <;> first | rfl | omega
  · intro r h1 h2; simp only [revenueBucket]; split_ifs <;> first | rfl | omega
  · intro r h1; simp only [revenueBucket]; split_ifs <;> first | rfl | omega
  · intro corpus lbl c hmem
    simp only [revenue_distribution, List.mem_filterMap] at hmem
    obtain ⟨a, -, hfa⟩ := hmem
    by_cases h0 :
        (corpus.filter (fun o => revenueBucket o.revenue_amount == a)).length = 0
    · rw [if_pos h0] at hfa; exact absurd hfa (by simp)
    · rw [if_neg h0] at hfa
      have hpair := Option.some.inj hfa
      have ha : a = lbl := congrArg Prod.fst hpair
      have hc : (corpus.filter
          (fun o => revenueBucket o.revenue_amount == a)).length = c :=
        congrArg Prod.snd hpair
      subst ha
      exact ⟨hc.symm, fun hz => h0 (hc.trans hz)⟩

/-- C6 witness: bucket membership at concrete revenues, and the reported
pair (Zero, 1) carries the exact nonzero count. -/
theorem revenue_distribution_spec_witness :
    revenueBucket 40000 = "<$50K"
    ∧ revenueBucket 8000000 = ">$5M"
    ∧ ((1 : Nat) =
        (sampleCorpus.filter
          (fun o => revenueBucket o.revenue_amount == "Zero")).length
       ∧ (1 : Nat) ≠ 0) :=
  ⟨revenue_distribution_spec.2.1 40000 (by decide) (by decide),
   revenue_distribution_spec.2.2.2.2.2.1 8000000 (by decide),
   revenue_distribution_spec.2.2.2.2.2.2.1 sampleCorpus "Zero" 1 (by decide)⟩

/-- C7: for every successfully parsed record, a non-empty classification
code yields a description looked up by the code's first character with
fallback "Unknown", and an empty code yields no description field;
code B300 yields "Education" and a code with unrecognized leading
character yields "Unknown". -/
theorem ntee_description_spec :
    (∀ (row : RawRow) (org : ParsedOrg), parse_eo_row row = some org →
        (org.ntee_code ≠ "" →
          org.ntee_description
            = some ((NTEE_CATEGORIES.lookup org.ntee_code.front).getD "Unknown"))
        ∧ (org.ntee_code = "" → org.ntee_description = none))
    ∧ (parse_eo_row eduRow).map (fun o => o.ntee_description)
        = some (some "Education")
    ∧ (parse_eo_row oddNteeRow).map (fun o => o.ntee_description)
        = some (some "Unknown") := by
  refine ⟨?_, by decide, by decide⟩
  intro row org h
  unfold parse_eo_row at h
  by_cases he : pyStrip row.EIN = ""
  · rw [if_pos he] at h
    exact absurd h (by simp)
  · rw [if_neg he] at h
    have horg := Option.some.inj h
    subst horg
    constructor
    · intro hne
      have hni : ¬ (pyStrip row.NTEE_CD).isEmpty = true := by
        intro hh
        exact hne ((String.isEmpty_iff _).mp hh)
      simp [hni]
    · intro heq
      have hni : (pyStrip row.NTEE_CD).isEmpty = true :=
        (String.isEmpty_iff _).mpr heq
      simp [hni]

/-- C7 witness: the record parsed from the B300 row carries the
description looked up from its leading character, which is Education. -/
theorem ntee_description_spec_witness :
    ((parse_eo_row eduRow).getD default).ntee_description
      = some "Education" := by
  have h := (ntee_description_spec.1 eduRow
      ((parse_eo_row eduRow).getD default) rfl).1 (by decide)
  rw [h]
  decide

/-- C8: a search request whose limit is below 1 or above the hard
ceiling 500, or whose offset range is negative, is rejected by the
validation layer with a descriptive failure and never produces a
storage-layer result. -/
theorem search_limit_validation_spec :
    ∀ (corpus : List OrgRow) (f : Filters) (limit offset : Int),
      (limit < 1 ∨ 500 < limit ∨ offset < 0) →
      ∃ msg, searchEndpoint corpus f limit offset = Except.error msg
        ∧ ∀ res, searchEndpoint corpus f limit offset ≠ Except.ok res := by
  intro corpus f limit offset h
  unfold searchEndpoint
  by_cases h1 : limit < 1
  · rw [if_pos h1]
    exact ⟨_, rfl, fun res hres => Except.noConfusion hres⟩
  · rw [if_neg h1]
    by_cases h2 : 500 < limit
    · rw [if_pos h2]
      exact ⟨_, rfl, fun res hres => Except.noConfusion hres⟩
    · rw [if_neg h2]
      have h3 : offset < 0 := by
        rcases h with h | h | h
        · exact absurd h h1
        · exact absurd h h2
        · exact h
      rw [if_pos h3]
      exact ⟨_, rfl, fun res hres => Except.noConfusion hres⟩

/-- C8 witness: limit 501 is rejected and yields no ok result. -/
theorem search_limit_validation_spec_witness :
    searchEndpoint [] {} 501 0 ≠ Except.ok ([], 0) := by
  obtain ⟨m, hm, hne⟩ :=
    search_limit_validation_spec [] {} 501 0 (Or.inr (Or.inl (by decide)))
  exact hne ([], 0)

/-- C4 counterexample: a partition consisting of one blank-EIN row
parses to an empty batch, yet the run's error/skip counter stays 0 and
nothing else counts the skip — the dropped row is not reflected in any
error/skip count, contrary to the claim. -/
theorem blank_ein_not_counted_cex :
    parse_eo_bmf [blankEinRow] = []
    ∧ (process_all_data [[blankEinRow]] false).1.errors = 0
    ∧ (process_all_data [[blankEinRow]] false).1.organizations_processed = 0 :=
  ⟨rfl, rfl, rfl⟩

/-- C4 (amended): a raw row whose EIN is blank after trimming parses to
absent rather than an error and is dropped from the partition's output
batch; it is not reflected in any error/skip count — the run summary's
errors counter remains 0 for every run. -/
theorem blank_ein_dropped_spec :
    ∀ (row : RawRow) (rest : List RawRow) (b : Bool),
      pyStrip row.EIN = "" →
      parse_eo_row row = none
      ∧ parse_eo_bmf (row :: rest) = parse_eo_bmf rest
      ∧ ∀ files : List (List RawRow), (process_all_data files b).1.errors = 0 := by
  intro row rest b h
  have hnone : parse_eo_row row = none := by
    unfold parse_eo_row
    rw [if_pos h]
  refine ⟨hnone, ?_, ?_⟩
  · show List.filterMap parse_eo_row (row :: rest) = _
    rw [List.filterMap_cons, hnone]
    rfl
  · intro files
    cases files with
    | nil => rfl
    | cons f fs => rfl

/-- C4 witness: the blank-EIN row is skipped, dropped from the batch,
and the errors counter of its run is 0. -/
theorem blank_ein_dropped_spec_witness :
    parse_eo_row blankEinRow = none
    ∧ parse_eo_bmf [blankEinRow] = parse_eo_bmf []
    ∧ (process_all_data [[blankEinRow]] false).1.errors = 0 := by
  have h := blank_ein_dropped_spec blankEinRow [] false (by decide)
  exact ⟨h.1, h.2.1, h.2.2 [[blankEinRow]]⟩
